import Mathlib

/-!
Verification of the activity-actor subsystem of this Cataclysm-DDA snapshot
(`src/activity_actor.h`): the polymorphic task interface with its type-gated
resumption check, the wash task's fractional-resource accounting, and the
serialization registry.

Modelling conventions:
* C++ `float` quantities (wash requirements, move counters) are embedded as
  exact rationals `ℚ`; `int` counters as `ℤ`; item counts as `ℕ`
  (the data model requires `count ≥ 0`).
* `activity_id` is embedded as a `String` tag.
* The header declares but does not define `wash::round_up`, `wash::round_down`,
  `wash_activity_actor::start/do_turn/...`, the registry
  `activity_actors::deserialize_functions` and the free
  `serialize`/`deserialize` pair (their bodies live in `activity_actor.cpp`,
  which is not part of this snapshot); those are modelled from the spec and
  marked `Modelled from the spec:` in their doc comments.
-/

namespace CataActivity

/-- Embedding of `activity_id` (a string id type). -/
abbrev ActivityId := String

/-- The slice of the external `Character` (actor) interface the wash task
consumes: how many units of each consumable kind are available.  Deduction is
subtraction on these fields. -/
structure Character where
  water : ℚ
  cleanser : ℚ
deriving DecidableEq, Repr

/-- The slice of the external task-runner (`player_activity`) the task reads
and writes: the progress counters. -/
structure PlayerActivity where
  moves_total : ℤ
  moves_left : ℤ
deriving DecidableEq, Repr

/-- `wash::requirements` (header lines 125-130): two fractional consumable
quantities, `float` in the source, embedded as `ℚ`. -/
structure Requirements where
  water : ℚ := 0
  cleanser : ℚ := 0
deriving DecidableEq, Repr

/-- `wash::operator+` (header lines 131-134): returns
`{ r1.water + r2.water, r1.cleanser + r2.cleanser }`.  Operands are taken by
const reference in the source and a fresh value is returned, so neither
operand is modified; the embedding is a pure function. -/
def Requirements.add (r1 r2 : Requirements) : Requirements :=
  { water := r1.water + r2.water, cleanser := r1.cleanser + r2.cleanser }

/-- Modelled from the spec: `wash::round_up` is declared (header line 147) but
defined only in the missing `activity_actor.cpp`.  Spec §3: "Ceiling/floor
rounding produces a requirement whose components are the smallest integer ≥
input / largest integer ≤ input". -/
def round_up (r : Requirements) : Requirements :=
  { water := (⌈r.water⌉ : ℤ), cleanser := (⌈r.cleanser⌉ : ℤ) }

/-- Modelled from the spec: `wash::round_down` is declared (header line 148)
but defined only in the missing `activity_actor.cpp`; its components are the
largest integers ≤ the input components. -/
def round_down (r : Requirements) : Requirements :=
  { water := (⌊r.water⌋ : ℤ), cleanser := (⌊r.cleanser⌋ : ℤ) }

/-- `wash::target` (header lines 136-142): an item-location handle (embedded
as an opaque numeric id), how many of it to wash, and the total requirements
needed to wash this target. -/
structure Target where
  loc : ℕ
  count : ℕ
  usage : Requirements
deriving DecidableEq, Repr

/-- Sum of all target counts (the "total item count" of spec §4.3). -/
def totalCount (ts : List Target) : ℕ :=
  ts.foldr (fun t acc => t.count + acc) 0

/-- State of `wash_activity_actor` (header lines 154-171): the target list,
the derived per-item move cost, the previous remaining-moves snapshot, the
unconsumed move-progress accumulator, and the fractional consumption
carryover. -/
structure WashState where
  targets : List Target
  moves_per_item : ℚ := 0
  prev_moves_left : ℤ := 0
  moves_remainder : ℚ := 0
  carryover : Requirements := {}
deriving DecidableEq, Repr

/-- The closed universe of concrete actor payloads (spec §9 models the
open-ended C++ class hierarchy as a closed set of tagged variants): the wash
task state, or the payload of some other concrete task type known only by its
tag and serialized fields. -/
inductive ActorRepr where
  | wash (s : WashState)
  | generic (tag : ActivityId) (fields : List ℤ)
deriving DecidableEq, Repr

/-- Embedding of a polymorphic `activity_actor` value: its dynamic type tag
(`get_type`), its concrete state, and the virtual
`can_resume_with_internal` method of its dynamic type applied to the other
actor's concrete state. -/
structure ActivityActor where
  get_type : ActivityId
  repr : ActorRepr
  can_resume_with_internal : ActorRepr → Character → Bool

/-- The base-class default body of `activity_actor::can_resume_with_internal`
(header lines 29-32): `return false;`. -/
def defaultResumeInternal : ActorRepr → Character → Bool :=
  fun _ _ => false

/-- `activity_actor::can_resume_with` (header lines 74-80): if
`other.get_type() == get_type()` delegate to `can_resume_with_internal`,
otherwise return `false`. -/
def can_resume_with (A other : ActivityActor) (who : Character) : Bool :=
  if other.get_type = A.get_type then
    A.can_resume_with_internal other.repr who
  else
    false

/-- `activity_actor::clone` contract (header lines 99-109): a deep copy that
"should behave like the original item and must have the same type"; with pure
value semantics the deep copy is the value itself. -/
def clone (A : ActivityActor) : ActivityActor := A

/-- The `wash_activity_actor` (header lines 152-186) as a polymorphic actor:
its `get_type` returns the wash activity id, and it declares no override of
`can_resume_with_internal`, so it inherits the base-class default. -/
def wash_activity_actor (s : WashState) : ActivityActor :=
  { get_type := "ACT_WASH"
    repr := .wash s
    can_resume_with_internal := defaultResumeInternal }

/-- Component-wise subtraction, used for resource deduction and for keeping a
target's total `usage` in step with its decremented `count`. -/
def Requirements.sub (r1 r2 : Requirements) : Requirements :=
  { water := r1.water - r2.water, cleanser := r1.cleanser - r2.cleanser }

/-- The current target's per-unit requirement (spec §4.3 step 3a): its total
`usage` spread over its remaining `count` units. -/
def perUnit (t : Target) : Requirements :=
  { water := t.usage.water / (t.count : ℚ), cleanser := t.usage.cleanser / (t.count : ℚ) }

/-- Result of the per-turn washing loop: the surviving targets, the updated
move-progress accumulator and carryover, the actor after deductions, and
whether the task cleared the runner's active-task slot (self-termination). -/
structure LoopResult where
  targets : List Target
  moves_remainder : ℚ
  carryover : Requirements
  who : Character
  cleared : Bool
deriving DecidableEq, Repr

/-- Modelled from the spec: the item-processing loop of
`wash_activity_actor::do_turn` (declared header line 178, body in the missing
`activity_actor.cpp`).  Spec §4.3 step 3: while `moves_remainder ≥
moves_per_item` and targets remain, add `carryover` to the current target's
per-unit requirement, split it into an integral part (consumed now, floor)
and a fractional remainder (the new carryover), deduct the integral amount
from the actor — aborting by clearing the runner's active-task slot if the
actor lacks it, retaining all state already applied — decrement the target's
count (dropping it at 0), and subtract `moves_per_item` from
`moves_remainder`.  Fully-processed (count 0) targets are skipped per the
§3 Task-Target lifecycle. -/
def washLoop (ts : List Target) (rem : ℚ) (mpi : ℚ) (co : Requirements)
    (who : Character) : LoopResult :=
  match ts with
  | [] => ⟨[], rem, co, who, false⟩
  | t :: rest =>
    if rem < mpi then ⟨t :: rest, rem, co, who, false⟩
    else if h0 : t.count = 0 then
      washLoop rest rem mpi co who
    else if who.water < (round_down ((perUnit t).add co)).water ∨
        who.cleanser < (round_down ((perUnit t).add co)).cleanser then
      ⟨t :: rest, rem, co, who, true⟩
    else if t.count - 1 = 0 then
      washLoop rest (rem - mpi) mpi
        (((perUnit t).add co).sub (round_down ((perUnit t).add co)))
        ⟨who.water - (round_down ((perUnit t).add co)).water,
          who.cleanser - (round_down ((perUnit t).add co)).cleanser⟩
    else
      washLoop ({ t with count := t.count - 1, usage := t.usage.sub (perUnit t) } :: rest)
        (rem - mpi) mpi
        (((perUnit t).add co).sub (round_down ((perUnit t).add co)))
        ⟨who.water - (round_down ((perUnit t).add co)).water,
          who.cleanser - (round_down ((perUnit t).add co)).cleanser⟩
termination_by (totalCount ts + ts.length, 0)
decreasing_by
  · simp [totalCount]
    omega
  · simp [totalCount]
    omega
  · simp [totalCount]
    omega

/-- Result of one `do_turn` call: the updated wash state, the actor after
deductions, and whether the task cleared the runner's active-task slot. -/
structure TurnResult where
  state : WashState
  who : Character
  cleared : Bool
deriving DecidableEq, Repr

/-- Modelled from the spec: `wash_activity_actor::do_turn` (declared header
line 178, body in the missing `activity_actor.cpp`).  Spec §4.3: compute
`elapsed = prev_moves_left − runner.moves_left`, add it to `moves_remainder`,
run the item-processing loop, and update `prev_moves_left` to the runner's
current remaining moves. -/
def wash_do_turn (s : WashState) (act : PlayerActivity) (who : Character) : TurnResult :=
  let elapsed : ℤ := s.prev_moves_left - act.moves_left
  let r := washLoop s.targets (s.moves_remainder + (elapsed : ℚ)) s.moves_per_item s.carryover who
  { state := { s with
      targets := r.targets
      moves_remainder := r.moves_remainder
      carryover := r.carryover
      prev_moves_left := act.moves_left }
    who := r.who
    cleared := r.cleared }

/-- Modelled from the spec: `wash_activity_actor::start` (declared header
line 177, body in the missing `activity_actor.cpp`).  Spec §4.3: set the
runner's total/remaining progress to the given total, derive
`moves_per_item = total_moves / total_item_count` guarding against zero total
items as a no-op task, and record the runner's initial remaining moves as
`prev_moves_left`. -/
def wash_start (targets : List Target) (total_moves : ℤ) : WashState × PlayerActivity :=
  let act : PlayerActivity := { moves_total := total_moves, moves_left := total_moves }
  let n := totalCount targets
  let mpi : ℚ := if n = 0 then 0 else (total_moves : ℚ) / (n : ℚ)
  ({ targets := targets
     moves_per_item := mpi
     prev_moves_left := act.moves_left
     moves_remainder := 0
     carryover := {} }, act)

/-- Modelled from the spec: the self-describing persisted record a task
writes (spec §6: "type tag + internal fields"). -/
structure SerializedActor where
  tag : ActivityId
  data : ActorRepr
deriving DecidableEq, Repr

/-- The deserialization error channel (spec §7): an unrecognized type tag or
a malformed record. -/
inductive DataError where
  | unknownTaskType (tag : ActivityId)
  | malformedRecord
deriving DecidableEq, Repr

/-- Modelled from the spec: the free `serialize` for a task handle (declared
header line 119, body in the missing `activity_actor.cpp`); writes the task's
type tag together with the state its virtual `serialize` emits. -/
def serializeActor (A : ActivityActor) : SerializedActor :=
  { tag := A.get_type, data := A.repr }

/-- Modelled from the spec: `wash_activity_actor::deserialize` (declared
header line 184, body in the missing `activity_actor.cpp`); reconstructs the
exact internal state previously serialized, failing on a malformed record. -/
def wash_deserialize (d : ActorRepr) : Except DataError ActivityActor :=
  match d with
  | .wash s => .ok (wash_activity_actor s)
  | _ => .error .malformedRecord

/-- Modelled from the spec: `activity_actors::deserialize_functions` (declared
header lines 192-193, defined in the missing `activity_actor.cpp`): the
registry mapping each concrete task type's tag to its deserialization
factory, populated with one entry per concrete task type — the wash task is
the only concrete task type in this snapshot. -/
def deserialize_functions (tag : ActivityId) :
    Option (ActorRepr → Except DataError ActivityActor) :=
  if tag = "ACT_WASH" then some wash_deserialize else none

/-- Modelled from the spec: the free `deserialize` for a task handle
(declared header line 120, body in the missing `activity_actor.cpp`).  Spec
§4.2: look the tag up in the registry, fail with a `DataError`
("unknown task type") if absent, otherwise invoke the factory. -/
def deserializeActor (rec : SerializedActor) : Except DataError ActivityActor :=
  match deserialize_functions rec.tag with
  | none => .error (.unknownTaskType rec.tag)
  | some f => f rec.data

/-- C1: for every two activity actors `A` and `B` and every `Character`, if
`A.get_type()` differs from `B.get_type()`, then `A.can_resume_with(B, actor)`
returns `false`, and the type-specific comparison
`can_resume_with_internal` is never invoked — formalized as: the result is
independent of the internal comparison installed on `A`. -/
theorem c1_type_gate_soundness (A B : ActivityActor) (who : Character)
    (hne : A.get_type ≠ B.get_type) :
    can_resume_with A B who = false ∧
      ∀ f g : ActorRepr → Character → Bool,
        can_resume_with { A with can_resume_with_internal := f } B who =
          can_resume_with { A with can_resume_with_internal := g } B who := by
  have h : ¬(B.get_type = A.get_type) := fun h => hne h.symm
  refine ⟨?_, fun f g => ?_⟩ <;> simp [can_resume_with, h]

/-- Witness for C1 at concrete actors of different types. -/
theorem c1_witness :
    can_resume_with (wash_activity_actor { targets := [] })
      { get_type := "ACT_MIGRATION_CANCEL"
        repr := .generic "ACT_MIGRATION_CANCEL" []
        can_resume_with_internal := defaultResumeInternal }
      { water := 0, cleanser := 0 } = false :=
  (c1_type_gate_soundness _ _ _ (by decide)).1

/-- C10: every activity actor whose concrete type keeps the base-class
default `can_resume_with_internal` (as the declared `wash_activity_actor`
does) has `can_resume_with` returning `false` against every other actor and
every `Character`, even with an equal type tag and identical state. -/
theorem c10_default_never_resumes (A B : ActivityActor) (who : Character)
    (hdef : A.can_resume_with_internal = defaultResumeInternal) :
    can_resume_with A B who = false := by
  simp [can_resume_with, hdef, defaultResumeInternal]

/-- Witness for C10: the wash actor against an identical copy of itself
(same tag, same state) still refuses resumption. -/
theorem c10_witness :
    can_resume_with
      (wash_activity_actor { targets := [⟨0, 1, {}⟩], moves_per_item := 10 })
      (wash_activity_actor { targets := [⟨0, 1, {}⟩], moves_per_item := 10 })
      { water := 3, cleanser := 3 } = false :=
  c10_default_never_resumes _ _ _ rfl

/-- C4: for a task type that supports resumption — i.e. whose
`can_resume_with_internal` accepts a task of identical internal state — a
task cloned from `T` satisfies `can_resume_with` against `T` for every actor.
(The declared `wash_activity_actor` keeps the base-class default internal
comparison, so it does not support resumption and the wash instance of the
claim is vacuous.) -/
theorem c4_resumption_reflexivity (A : ActivityActor) (who : Character)
    (hres : ∀ w : Character, A.can_resume_with_internal A.repr w = true) :
    can_resume_with (clone A) A who = true := by
  simp [clone, can_resume_with, hres who]

/-- A demonstration actor type that does support resumption: its internal
comparison accepts any task holding the same serialized fields. -/
def resumableDemo : ActivityActor :=
  { get_type := "ACT_DEMO"
    repr := .generic "ACT_DEMO" [7]
    can_resume_with_internal := fun r _ =>
      match r with
      | .generic _ fields => fields == [7]
      | _ => false }

/-- Witness for C4 at a concrete resumable actor. -/
theorem c4_witness :
    can_resume_with (clone resumableDemo) resumableDemo
      { water := 1, cleanser := 0 } = true :=
  c4_resumption_reflexivity resumableDemo _ (fun _ => rfl)

/-- C8: `wash::operator+` is component-wise on both fields; being a pure
function of two const-reference operands it modifies neither. -/
theorem c8_add_componentwise (r1 r2 : Requirements) :
    (Requirements.add r1 r2).water = r1.water + r2.water ∧
      (Requirements.add r1 r2).cleanser = r1.cleanser + r2.cleanser :=
  ⟨rfl, rfl⟩

/-- Witness for C8 at concrete fractional requirements. -/
theorem c8_witness :
    (Requirements.add ⟨1/2, 3⟩ ⟨5/2, 4⟩).water = 1/2 + 5/2 ∧
      (Requirements.add ⟨1/2, 3⟩ ⟨5/2, 4⟩).cleanser = 3 + 4 :=
  c8_add_componentwise ⟨1/2, 3⟩ ⟨5/2, 4⟩

/-- C7: each component of `round_up r` is the smallest integer ≥ the
corresponding component of `r`, and each component of `round_down r` is the
largest integer ≤ it. -/
theorem c7_rounding_correct (r : Requirements) :
    (∃ n : ℤ, (round_up r).water = (n : ℚ) ∧ r.water ≤ (n : ℚ) ∧
      ∀ m : ℤ, r.water ≤ (m : ℚ) → n ≤ m) ∧
    (∃ n : ℤ, (round_up r).cleanser = (n : ℚ) ∧ r.cleanser ≤ (n : ℚ) ∧
      ∀ m : ℤ, r.cleanser ≤ (m : ℚ) → n ≤ m) ∧
    (∃ n : ℤ, (round_down r).water = (n : ℚ) ∧ (n : ℚ) ≤ r.water ∧
      ∀ m : ℤ, (m : ℚ) ≤ r.water → m ≤ n) ∧
    (∃ n : ℤ, (round_down r).cleanser = (n : ℚ) ∧ (n : ℚ) ≤ r.cleanser ∧
      ∀ m : ℤ, (m : ℚ) ≤ r.cleanser → m ≤ n) := by
  refine ⟨⟨⌈r.water⌉, rfl, Int.le_ceil _, fun m hm => Int.ceil_le.mpr hm⟩,
    ⟨⌈r.cleanser⌉, rfl, Int.le_ceil _, fun m hm => Int.ceil_le.mpr hm⟩,
    ⟨⌊r.water⌋, rfl, Int.floor_le _, fun m hm => Int.le_floor.mpr hm⟩,
    ⟨⌊r.cleanser⌋, rfl, Int.floor_le _, fun m hm => Int.le_floor.mpr hm⟩⟩

/-- Witness for C7 at a concrete fractional requirement. -/
theorem c7_witness :
    ((5 : ℚ)/2 ≤ (round_up ⟨5/2, 0⟩).water) ∧
      ((round_down ⟨5/2, 0⟩).water ≤ (5 : ℚ)/2) := by
  obtain ⟨⟨n, hw, hle, -⟩, -, ⟨k, hw2, hle2, -⟩, -⟩ := c7_rounding_correct ⟨5/2, 0⟩
  exact ⟨hw ▸ hle, hw2 ▸ hle2⟩

/-- C2: for the concrete task type registered in the registry (the wash
task, the only concrete task type in this snapshot), deserializing the output
of serializing a task reproduces the task exactly: the same type tag, the
same internal state, and the same virtual behavior, i.e. the identical actor
value. -/
theorem c2_round_trip (s : WashState) :
    deserializeActor (serializeActor (wash_activity_actor s)) =
      .ok (wash_activity_actor s) := by
  simp [deserializeActor, serializeActor, deserialize_functions,
    wash_deserialize, wash_activity_actor]

/-- Witness for C2 at a concrete wash task state. -/
theorem c2_witness :
    deserializeActor (serializeActor (wash_activity_actor
        { targets := [⟨1, 2, ⟨3/2, 1/2⟩⟩], moves_per_item := 5 })) =
      .ok (wash_activity_actor
        { targets := [⟨1, 2, ⟨3/2, 1/2⟩⟩], moves_per_item := 5 }) :=
  c2_round_trip _

/-- C3: deserializing a persisted task whose type tag is absent from the
registry fails explicitly with the `DataError` "unknown task type" rather
than producing a default task; when the tag is present the looked-up factory
is the function invoked to reconstruct the task. -/
theorem c3_unknown_tag_fails (rec : SerializedActor) :
    (deserialize_functions rec.tag = none →
      deserializeActor rec = .error (.unknownTaskType rec.tag)) ∧
    (∀ f, deserialize_functions rec.tag = some f →
      deserializeActor rec = f rec.data) := by
  refine ⟨fun h => ?_, fun f h => ?_⟩ <;> simp [deserializeActor, h]

/-- Witness for C3: an unregistered tag yields the explicit error; the
registered wash tag reaches the wash factory. -/
theorem c3_witness :
    deserializeActor { tag := "ACT_MIGRATION_CANCEL"
                       data := .generic "ACT_MIGRATION_CANCEL" [] } =
      .error (.unknownTaskType "ACT_MIGRATION_CANCEL") ∧
    deserializeActor { tag := "ACT_WASH", data := .wash { targets := [] } } =
      .ok (wash_activity_actor { targets := [] }) := by
  refine ⟨(c3_unknown_tag_fails _).1 rfl, ?_⟩
  exact ((c3_unknown_tag_fails
    { tag := "ACT_WASH", data := .wash { targets := [] } }).2
    wash_deserialize rfl).trans rfl

/-- The washing loop performs no work when no items remain to wash: the
actor, the carryover, the progress accumulator and the active-task slot are
all untouched. -/
theorem washLoop_no_items (ts : List Target) (rem mpi : ℚ) (co : Requirements)
    (who : Character) (h : totalCount ts = 0) :
    (washLoop ts rem mpi co who).who = who ∧
    (washLoop ts rem mpi co who).cleared = false ∧
    (washLoop ts rem mpi co who).carryover = co ∧
    (washLoop ts rem mpi co who).moves_remainder = rem := by
  induction ts with
  | nil => simp [washLoop]
  | cons t rest ih =>
    have h1 : t.count = 0 := by simp [totalCount] at h; omega
    have h2 : totalCount rest = 0 := by simp [totalCount] at h ⊢; omega
    by_cases hlt : rem < mpi
    · simp [washLoop, hlt]
    · rw [washLoop.eq_def]
      simp only [if_neg hlt, dif_pos h1]
      exact ih h2

/-- C9: if the wash task's total item count is zero at `start`, the division
deriving `moves_per_item` is guarded (`moves_per_item` is set to `0`, no
division is attempted) and the task behaves as a no-op on any subsequent
turn: the actor is untouched, the task does not clear the runner's slot, and
no fractional consumption accumulates. -/
theorem c9_zero_items_noop (targets : List Target) (total_moves : ℤ)
    (act' : PlayerActivity) (who : Character) (h : totalCount targets = 0) :
    (wash_start targets total_moves).1.moves_per_item = 0 ∧
    (wash_do_turn (wash_start targets total_moves).1 act' who).who = who ∧
    (wash_do_turn (wash_start targets total_moves).1 act' who).cleared = false ∧
    (wash_do_turn (wash_start targets total_moves).1 act' who).state.carryover = {} := by
  have hmpi : (wash_start targets total_moves).1.moves_per_item = 0 := by
    simp [wash_start, h]
  refine ⟨hmpi, ?_, ?_, ?_⟩ <;> dsimp only [wash_do_turn, wash_start]
  · exact (washLoop_no_items _ _ _ _ _ h).1
  · exact (washLoop_no_items _ _ _ _ _ h).2.1
  · exact (washLoop_no_items _ _ _ _ _ h).2.2.1

/-- Witness for C9: a nonempty target list whose counts sum to zero, with a
runner mid-flight. -/
theorem c9_witness :
    (wash_start [⟨0, 0, ⟨1, 1⟩⟩] 100).1.moves_per_item = 0 ∧
    (wash_do_turn (wash_start [⟨0, 0, ⟨1, 1⟩⟩] 100).1 ⟨100, 37⟩ ⟨5, 5⟩).who = ⟨5, 5⟩ ∧
    (wash_do_turn (wash_start [⟨0, 0, ⟨1, 1⟩⟩] 100).1 ⟨100, 37⟩ ⟨5, 5⟩).cleared = false ∧
    (wash_do_turn (wash_start [⟨0, 0, ⟨1, 1⟩⟩] 100).1 ⟨100, 37⟩ ⟨5, 5⟩).state.carryover = {} :=
  c9_zero_items_noop [⟨0, 0, ⟨1, 1⟩⟩] 100 ⟨100, 37⟩ ⟨5, 5⟩ rfl

/-- C6: if, at the point `do_turn` is about to process the next item, the
actor lacks the integral consumable amount due for it, the task
self-terminates by clearing the runner's active-task slot (a normal return,
not an error channel — `wash_do_turn` is a total function) and retains all
state already applied unchanged: the actor's resources, the target list and
the carryover are exactly those accumulated from the previously completed
items. -/
theorem c6_resource_exhaustion_aborts (s : WashState) (act : PlayerActivity)
    (who : Character) (t : Target) (rest : List Target)
    (hts : s.targets = t :: rest)
    (hcount : t.count ≠ 0)
    (hrem : s.moves_per_item ≤
      s.moves_remainder + ((s.prev_moves_left - act.moves_left : ℤ) : ℚ))
    (hlack : who.water < (round_down ((perUnit t).add s.carryover)).water ∨
             who.cleanser < (round_down ((perUnit t).add s.carryover)).cleanser) :
    (wash_do_turn s act who).cleared = true ∧
    (wash_do_turn s act who).who = who ∧
    (wash_do_turn s act who).state.targets = s.targets ∧
    (wash_do_turn s act who).state.carryover = s.carryover := by
  have hnlt : ¬(s.moves_remainder + ((s.prev_moves_left - act.moves_left : ℤ) : ℚ) <
      s.moves_per_item) := not_lt.mpr hrem
  dsimp only [wash_do_turn]
  rw [hts, washLoop.eq_def]
  simp only [if_neg hnlt, dif_neg hcount, if_pos hlack]
  exact ⟨trivial, trivial, trivial, trivial⟩

/-- Witness for C6, at the state the spec's §8 second scenario reaches after
two completed items: one target of one item needing 2 water + 1 cleanser
remains, the actor has water but no cleanser left, and enough moves have
elapsed to wash it. -/
theorem c6_witness :
    (wash_do_turn ⟨[⟨0, 1, ⟨2, 1⟩⟩], 10, 10, 0, {}⟩ ⟨30, 0⟩ ⟨96, 0⟩).cleared = true ∧
    (wash_do_turn ⟨[⟨0, 1, ⟨2, 1⟩⟩], 10, 10, 0, {}⟩ ⟨30, 0⟩ ⟨96, 0⟩).who = ⟨96, 0⟩ ∧
    (wash_do_turn ⟨[⟨0, 1, ⟨2, 1⟩⟩], 10, 10, 0, {}⟩ ⟨30, 0⟩ ⟨96, 0⟩).state.targets =
      [⟨0, 1, ⟨2, 1⟩⟩] ∧
    (wash_do_turn ⟨[⟨0, 1, ⟨2, 1⟩⟩], 10, 10, 0, {}⟩ ⟨30, 0⟩ ⟨96, 0⟩).state.carryover = {} := by
  refine c6_resource_exhaustion_aborts _ _ _ ⟨0, 1, ⟨2, 1⟩⟩ [] rfl (by norm_num)
    (by norm_num) (Or.inr ?_)
  norm_num [perUnit, Requirements.add, round_down]

/-- Unfolding: the washing loop on an empty target list does nothing. -/
theorem washLoop_nil (rem mpi : ℚ) (co : Requirements) (who : Character) :
    washLoop [] rem mpi co who = ⟨[], rem, co, who, false⟩ := by
  rw [washLoop.eq_def]

/-- Unfolding: with less accumulated progress than one item costs, the loop
exits leaving everything unchanged. -/
theorem washLoop_wait (t : Target) (rest : List Target) (rem mpi : ℚ)
    (co : Requirements) (who : Character) (hlt : rem < mpi) :
    washLoop (t :: rest) rem mpi co who = ⟨t :: rest, rem, co, who, false⟩ := by
  rw [washLoop.eq_def]
  simp only [if_pos hlt]

/-- Unfolding: when the actor cannot cover the integral amount due for the
current item, the loop stops, clearing the task slot and keeping the state it
has accumulated. -/
theorem washLoop_abort (t : Target) (rest : List Target) (rem mpi : ℚ)
    (co : Requirements) (who : Character)
    (hnlt : ¬rem < mpi) (h0 : t.count ≠ 0)
    (hlack : who.water < (round_down ((perUnit t).add co)).water ∨
      who.cleanser < (round_down ((perUnit t).add co)).cleanser) :
    washLoop (t :: rest) rem mpi co who = ⟨t :: rest, rem, co, who, true⟩ := by
  rw [washLoop.eq_def]
  simp only [if_neg hnlt, dif_neg h0, if_pos hlack]

/-- Unfolding: washing the last unit of the current target deducts the
integral amount, keeps the fractional part as carryover, drops the target and
charges `moves_per_item` of progress. -/
theorem washLoop_consume_last (t : Target) (rest : List Target) (rem mpi : ℚ)
    (co : Requirements) (who : Character)
    (hnlt : ¬rem < mpi) (h0 : t.count ≠ 0)
    (hok : ¬(who.water < (round_down ((perUnit t).add co)).water ∨
      who.cleanser < (round_down ((perUnit t).add co)).cleanser))
    (hone : t.count - 1 = 0) :
    washLoop (t :: rest) rem mpi co who =
      washLoop rest (rem - mpi) mpi
        (((perUnit t).add co).sub (round_down ((perUnit t).add co)))
        ⟨who.water - (round_down ((perUnit t).add co)).water,
          who.cleanser - (round_down ((perUnit t).add co)).cleanser⟩ := by
  rw [washLoop.eq_def]
  simp only [if_neg hnlt, dif_neg h0, if_neg hok, if_pos hone]

/-- A fractional value minus its floor lies in `[0, 1)`. -/
theorem sub_floor_bounds (x : ℚ) : 0 ≤ x - (⌊x⌋ : ℚ) ∧ x - (⌊x⌋ : ℚ) < 1 :=
  ⟨sub_nonneg.mpr (Int.floor_le x), by have := Int.lt_floor_add_one x; linarith⟩

/-- Both components lie in `[0, 1)` of a discrete unit — the carryover range
of the spec's §3 Wash Task invariant. -/
def Requirements.inUnit (r : Requirements) : Prop :=
  0 ≤ r.water ∧ r.water < 1 ∧ 0 ≤ r.cleanser ∧ r.cleanser < 1

/-- The washing loop's state invariant: starting from a nonnegative progress
accumulator and an in-range carryover, the accumulator stays nonnegative, the
carryover stays in `[0, 1)`, and whenever the loop ends with the task still
active and targets still pending, the accumulator is below the per-item
cost. -/
theorem washLoop_invariant (ts : List Target) (rem mpi : ℚ) (co : Requirements)
    (who : Character) :
    0 ≤ rem → co.inUnit →
    0 ≤ (washLoop ts rem mpi co who).moves_remainder ∧
    (washLoop ts rem mpi co who).carryover.inUnit ∧
    ((washLoop ts rem mpi co who).cleared = false →
      (washLoop ts rem mpi co who).targets ≠ [] →
      (washLoop ts rem mpi co who).moves_remainder < mpi) := by
  induction ts, rem, mpi, co, who using washLoop.induct with
  | case1 rem mpi co who =>
    intro hrem hco
    rw [washLoop.eq_def]
    exact ⟨hrem, hco, fun _ hne => absurd rfl hne⟩
  | case2 rem mpi co who t rest hlt =>
    intro hrem hco
    rw [washLoop.eq_def]
    simp only [if_pos hlt]
    exact ⟨hrem, hco, fun _ _ => hlt⟩
  | case3 rem mpi co who t rest hnlt h0 ih =>
    intro hrem hco
    rw [washLoop.eq_def]
    simp only [if_neg hnlt, dif_pos h0]
    exact ih hrem hco
  | case4 rem mpi co who t rest hnlt h0 hlack =>
    intro hrem hco
    rw [washLoop.eq_def]
    simp only [if_neg hnlt, dif_neg h0, if_pos hlack]
    exact ⟨hrem, hco, fun h => by simp at h⟩
  | case5 rem mpi co who t rest hnlt h0 hok hone ih =>
    intro hrem hco
    rw [washLoop.eq_def]
    simp only [if_neg hnlt, dif_neg h0, if_neg hok, if_pos hone]
    exact ih (by linarith [not_lt.mp hnlt])
      ⟨(sub_floor_bounds _).1, (sub_floor_bounds _).2,
        (sub_floor_bounds _).1, (sub_floor_bounds _).2⟩
  | case6 rem mpi co who t rest hnlt h0 hok hone ih =>
    intro hrem hco
    rw [washLoop.eq_def]
    simp only [if_neg hnlt, dif_neg h0, if_neg hok, if_neg hone]
    exact ih (by linarith [not_lt.mp hnlt])
      ⟨(sub_floor_bounds _).1, (sub_floor_bounds _).2,
        (sub_floor_bounds _).1, (sub_floor_bounds _).2⟩

/-- C5 counterexample: two completed `do_turn` invocations after which
`moves_remainder` does NOT lie in `[0, moves_per_item)`.  First: the runner
overshoots (25 moves elapse on a single 10-move item), the loop exhausts the
target list and exits with `moves_remainder = 15 ≥ 10`, without aborting.
Second: a `do_turn` that aborts on missing resources keeps the already
accumulated `moves_remainder = 10 ≥ 10`. -/
theorem c5_counterexample :
    ((wash_do_turn ⟨[⟨0, 1, {}⟩], 10, 30, 0, {}⟩ ⟨30, 5⟩ ⟨100, 100⟩).cleared = false ∧
      ¬((wash_do_turn ⟨[⟨0, 1, {}⟩], 10, 30, 0, {}⟩ ⟨30, 5⟩ ⟨100, 100⟩).state.moves_remainder <
        (wash_do_turn ⟨[⟨0, 1, {}⟩], 10, 30, 0, {}⟩ ⟨30, 5⟩ ⟨100, 100⟩).state.moves_per_item)) ∧
    ((wash_do_turn ⟨[⟨0, 1, ⟨2, 1⟩⟩], 10, 10, 0, {}⟩ ⟨30, 0⟩ ⟨0, 0⟩).cleared = true ∧
      ¬((wash_do_turn ⟨[⟨0, 1, ⟨2, 1⟩⟩], 10, 10, 0, {}⟩ ⟨30, 0⟩ ⟨0, 0⟩).state.moves_remainder <
        (wash_do_turn ⟨[⟨0, 1, ⟨2, 1⟩⟩], 10, 10, 0, {}⟩ ⟨30, 0⟩ ⟨0, 0⟩).state.moves_per_item)) := by
  have hneed : round_down ((perUnit (⟨0, 1, {}⟩ : Target)).add {}) = ⟨0, 0⟩ := by
    simp [perUnit, Requirements.add, round_down]
  have hok : ¬((100 : ℚ) < (round_down ((perUnit (⟨0, 1, {}⟩ : Target)).add {})).water ∨
      (100 : ℚ) < (round_down ((perUnit (⟨0, 1, {}⟩ : Target)).add {})).cleanser) := by
    rw [hneed]
    norm_num
  have hnlt1 : ¬((0 : ℚ) + ((30 - 5 : ℤ) : ℚ) < 10) := by norm_num
  have step1 := washLoop_consume_last ⟨0, 1, {}⟩ [] ((0 : ℚ) + ((30 - 5 : ℤ) : ℚ)) 10 {}
    ⟨100, 100⟩ hnlt1 (by norm_num) hok rfl
  have hneed2 : round_down ((perUnit (⟨0, 1, ⟨2, 1⟩⟩ : Target)).add {}) = ⟨2, 1⟩ := by
    simp [perUnit, Requirements.add, round_down]
  have hlack2 : (0 : ℚ) < (round_down ((perUnit (⟨0, 1, ⟨2, 1⟩⟩ : Target)).add {})).water ∨
      (0 : ℚ) < (round_down ((perUnit (⟨0, 1, ⟨2, 1⟩⟩ : Target)).add {})).cleanser := by
    rw [hneed2]
    norm_num
  have hnlt2 : ¬((0 : ℚ) + ((10 - 0 : ℤ) : ℚ) < 10) := by norm_num
  have step2 := washLoop_abort ⟨0, 1, ⟨2, 1⟩⟩ [] ((0 : ℚ) + ((10 - 0 : ℤ) : ℚ)) 10 {}
    ⟨0, 0⟩ hnlt2 (by norm_num) hlack2
  refine ⟨⟨?_, ?_⟩, ⟨?_, ?_⟩⟩
  · show (washLoop [⟨0, 1, {}⟩] ((0 : ℚ) + ((30 - 5 : ℤ) : ℚ)) 10 {} ⟨100, 100⟩).cleared = false
    rw [step1, washLoop_nil]
  · show ¬((washLoop [⟨0, 1, {}⟩] ((0 : ℚ) + ((30 - 5 : ℤ) : ℚ)) 10 {} ⟨100, 100⟩).moves_remainder
        < 10)
    rw [step1, washLoop_nil]
    norm_num
  · show (washLoop [⟨0, 1, ⟨2, 1⟩⟩] ((0 : ℚ) + ((10 - 0 : ℤ) : ℚ)) 10 {} ⟨0, 0⟩).cleared = true
    rw [step2]
  · show ¬((washLoop [⟨0, 1, ⟨2, 1⟩⟩] ((0 : ℚ) + ((10 - 0 : ℤ) : ℚ)) 10 {} ⟨0, 0⟩).moves_remainder
        < 10)
    rw [step2]
    norm_num

/-- C5 (amended): after a completed `do_turn` starting from the task
invariants (`moves_remainder ≥ 0`, carryover components in `[0, 1)`, and a
runner whose remaining moves did not increase since the last step),
`moves_remainder` stays nonnegative, the carryover components stay in
`[0, 1)`, and `moves_remainder < moves_per_item` holds whenever the task has
not cleared itself and unfinished targets remain (the two situations the
counterexample exhibits — target-list exhaustion and a resource abort — are
exactly the ones excluded). -/
theorem c5_amended_remainder_carryover (s : WashState) (act : PlayerActivity)
    (who : Character)
    (hrem : 0 ≤ s.moves_remainder)
    (hmono : act.moves_left ≤ s.prev_moves_left)
    (hco : s.carryover.inUnit) :
    0 ≤ (wash_do_turn s act who).state.moves_remainder ∧
    (wash_do_turn s act who).state.carryover.inUnit ∧
    ((wash_do_turn s act who).cleared = false →
      (wash_do_turn s act who).state.targets ≠ [] →
      (wash_do_turn s act who).state.moves_remainder < s.moves_per_item) := by
  have helap : (0 : ℚ) ≤ ((s.prev_moves_left - act.moves_left : ℤ) : ℚ) := by
    exact_mod_cast sub_nonneg.mpr hmono
  have h0 : (0 : ℚ) ≤ s.moves_remainder + ((s.prev_moves_left - act.moves_left : ℤ) : ℚ) := by
    linarith
  dsimp only [wash_do_turn]
  exact washLoop_invariant _ _ _ _ _ h0 hco

/-- Witness for the amended C5: a mid-flight turn in which 5 of the 20 moves
for two 10-move items have elapsed, no item completes, and the invariant
bounds hold. -/
theorem c5_witness :
    0 ≤ (wash_do_turn ⟨[⟨0, 2, ⟨1, 1⟩⟩], 10, 30, 0, {}⟩ ⟨30, 25⟩ ⟨9, 9⟩).state.moves_remainder ∧
    (wash_do_turn ⟨[⟨0, 2, ⟨1, 1⟩⟩], 10, 30, 0, {}⟩ ⟨30, 25⟩ ⟨9, 9⟩).state.carryover.inUnit ∧
    ((wash_do_turn ⟨[⟨0, 2, ⟨1, 1⟩⟩], 10, 30, 0, {}⟩ ⟨30, 25⟩ ⟨9, 9⟩).cleared = false →
      (wash_do_turn ⟨[⟨0, 2, ⟨1, 1⟩⟩], 10, 30, 0, {}⟩ ⟨30, 25⟩ ⟨9, 9⟩).state.targets ≠ [] →
      (wash_do_turn ⟨[⟨0, 2, ⟨1, 1⟩⟩], 10, 30, 0, {}⟩ ⟨30, 25⟩ ⟨9, 9⟩).state.moves_remainder < 10) :=
  c5_amended_remainder_carryover _ _ _ (by norm_num) (by norm_num)
    ⟨by norm_num, by norm_num, by norm_num, by norm_num⟩

end CataActivity
